import Mathlib

/-!
# Verification of the rust-weechat HData access layer

A shallow embedding of the typed dynamic-attribute access layer of
`rust-weechat` (files `src/weechat-rs/src/hdata.rs`, `src/weechat-rs/src/lib.rs`,
`src/weechat-rs/src/hashtable.rs`).

The host (WeeChat) is modelled as a record of pure foreign entry points
(`Host`).  Each binding operation is translated from the Rust source into a
Lean function that returns its result together with an explicit trace of the
foreign calls it performed (`HostCall`), so that properties such as "the
kind-specific read is never invoked on a kind mismatch" or "exactly one bulk
commit happens" are statable.  Rust panics are modelled by `Except String`.
-/

namespace Weechat

/-- The nul character, `'\0'` in Rust. -/
def nulChar : Char := Char.ofNat 0

/-- Model of `std::ffi::CString::new`: fails (returns `none`) exactly when the
input contains an interior nul byte, otherwise the C string's contents are the
input itself.  (The terminating nul that `CString` appends is not part of the
contents and is not modelled.) -/
def CString_new (s : String) : Option String :=
  if s.data.contains nulChar then none else some s

/-- Model of Rust `str::replace('\0', "")`: removes every nul character. -/
def strReplaceNul (s : String) : String :=
  ⟨s.data.filter (fun c => c ≠ nulChar)⟩

/-- Function `LossyCString::new` from `src/weechat-rs/src/lib.rs`:
try `CString::new` on the input; on failure, strip the nuls and try again,
panicking (`expect("string has no nulls")`) if that also fails.
A panic is modelled as `Except.error`. -/
def LossyCString_new (s : String) : Except String String :=
  match CString_new s with
  | some cstr => Except.ok cstr
  | none =>
    match CString_new (strReplaceNul s) with
    | some cstr => Except.ok cstr
    | none => Except.error "string has no nulls"

/-- The contents of the C string produced by `LossyCString::new`; lemma
`lossyCString_spec` below proves `LossyCString_new` always succeeds with
exactly this value, which is why the remaining operations can use it
directly. -/
def lossy (s : String) : String := strReplaceNul s

/-! ## Kind tag codes

Codes reported by the host's `hdata_get_var_type` entry point, as defined in
WeeChat's `weechat-plugin.h` and re-exported by the `weechat-sys` crate. -/

def WEECHAT_HDATA_OTHER : Int := 0
def WEECHAT_HDATA_CHAR : Int := 1
def WEECHAT_HDATA_INTEGER : Int := 2
def WEECHAT_HDATA_LONG : Int := 3
def WEECHAT_HDATA_STRING : Int := 4
def WEECHAT_HDATA_POINTER : Int := 5
def WEECHAT_HDATA_TIME : Int := 6

/-! ## Data model -/

/-- Structure `HData` from `src/weechat-rs/src/hdata.rs`: a plugin pointer, the backing
object address and the hdata (schema) handle.  Foreign addresses are modelled
as `Nat`, with `0` playing the role of the null pointer. -/
structure HData where
  weechat_ptr : Nat
  object : Nat
  ptr : Nat
  deriving DecidableEq, Repr

/-- Structure `HDataPointer` from `src/weechat-rs/src/hdata.rs`: an opaque foreign
address together with the plugin pointer. -/
structure HDataPointer where
  ptr : Nat
  weechat : Nat
  deriving DecidableEq, Repr

/-- Structure `Hashtable` from `src/weechat-rs/src/hashtable.rs`, with the host-side
contents made explicit: the declared key/value item types (as the strings
`HashtableItemType::to_string` produces) and the staged entries. -/
structure Hashtable where
  weechat_ptr : Nat
  size : Nat
  key_type : String
  value_type : String
  entries : List (String × String)
  deriving DecidableEq, Repr

/-- Method `Hashtable::set`: both key and value cross the boundary through
`LossyCString::new`; the host's `hashtable_set` adds the entry or updates an
existing one with the same key. -/
def Hashtable.set (ht : Hashtable) (key value : String) : Hashtable :=
  let k := lossy key
  let v := lossy value
  if (ht.entries.map Prod.fst).contains k then
    { ht with entries := ht.entries.map (fun e => if e.1 = k then (k, v) else e) }
  else
    { ht with entries := ht.entries ++ [(k, v)] }

/-- Model of `chrono::DateTime<Utc>`: only the unix timestamp (seconds) is
relevant to this layer. -/
structure DateTimeUtc where
  secs : Int
  deriving DecidableEq, Repr

/-- Smallest unix timestamp representable by `chrono::NaiveDateTime`
(midnight of `NaiveDate::MIN`, year -262144). -/
def CHRONO_MIN_TS : Int := -8334632851200

/-- Largest whole-second unix timestamp representable by
`chrono::NaiveDateTime` (end of `NaiveDate::MAX`, year 262143). -/
def CHRONO_MAX_TS : Int := 8210298412799

/-- Model of `chrono::NaiveDateTime::from_timestamp(secs, 0)` (chrono 0.4):
returns the datetime for an in-range number of seconds and panics — modelled
as `none` — on an out-of-range one. -/
def NaiveDateTime_from_timestamp (secs : Int) : Option DateTimeUtc :=
  if CHRONO_MIN_TS ≤ secs ∧ secs ≤ CHRONO_MAX_TS then some ⟨secs⟩ else none

/-- Method `DateTime::<Utc>::timestamp`. -/
def DateTimeUtc.timestamp (d : DateTimeUtc) : Int := d.secs

/-- Model of `TryInto<u8>` on a C `char` value (an integer): succeeds exactly
when the value is in `u8` range. -/
def c_char_try_into_u8 (v : Int) : Option Nat :=
  if 0 ≤ v ∧ v < 256 then some v.toNat else none

/-- The `usize` cast applied to the C `int` returned by `hdata_update`. -/
def as_usize (i : Int) : Nat := (i % (2 : Int) ^ 64).toNat

/-! ## The host -/

/-- One foreign call made by the binding, with the arguments it passed. -/
inductive HostCall where
  | getVarType (hdata_ptr : Nat) (name : String)
  | readString (hdata_ptr object : Nat) (name : String)
  | readInteger (hdata_ptr object : Nat) (name : String)
  | readLong (hdata_ptr object : Nat) (name : String)
  | readChar (hdata_ptr object : Nat) (name : String)
  | readTime (hdata_ptr object : Nat) (name : String)
  | readPointer (hdata_ptr object : Nat) (name : String)
  | hashtableNew (size : Nat) (key_type value_type : String)
  | hashtableSet (key value : String)
  | hdataUpdate (hdata_ptr object : Nat) (table : Hashtable)
  | hdataMove (hdata_ptr ptr : Nat) (count : Int)
  deriving DecidableEq, Repr

/-- The host's foreign entry points, as pure functions.  Reads that may return
a null C string are `Option String` (`none` = null); `hdata_pointer` and
`hdata_move` return addresses where `0` is null; `hashtable_new_ok` tells
whether `hashtable_new` succeeds (returns a non-null table). -/
structure Host where
  hdata_get_var_type : Nat → String → Int
  hdata_string : Nat → Nat → String → Option String
  hdata_integer : Nat → Nat → String → Int
  hdata_long : Nat → Nat → String → Int
  hdata_char : Nat → Nat → String → Int
  hdata_time : Nat → Nat → String → Int
  hdata_pointer : Nat → Nat → String → Nat
  hdata_update : Nat → Nat → Hashtable → Int
  hdata_move : Nat → Nat → Int → Nat
  hashtable_new_ok : Nat → String → String → Bool

/-! ## The typed read path (`HDataType::hdata_value`)

Each implementation, translated from `src/weechat-rs/src/hdata.rs`, first asks
the host for the field's kind via `hdata_get_var_type` and returns `None` on a
mismatch without performing the kind-specific read.  Results are wrapped in
`Except String` so that a Rust panic on the path is representable. -/

/-- Translation of `impl HDataType for Cow<str>`: `hdata_value`. -/
def hdataValueStr (host : Host) (h : HData) (name : String) :
    Except String (Option String) × List HostCall :=
  let n := lossy name
  if host.hdata_get_var_type h.ptr n ≠ WEECHAT_HDATA_STRING then
    (Except.ok none, [HostCall.getVarType h.ptr n])
  else
    let ret := host.hdata_string h.ptr h.object n
    (Except.ok ret, [HostCall.getVarType h.ptr n, HostCall.readString h.ptr h.object n])

/-- Translation of `impl HDataType for i32`: `hdata_value`. -/
def hdataValueI32 (host : Host) (h : HData) (name : String) :
    Except String (Option Int) × List HostCall :=
  let n := lossy name
  if host.hdata_get_var_type h.ptr n ≠ WEECHAT_HDATA_INTEGER then
    (Except.ok none, [HostCall.getVarType h.ptr n])
  else
    (Except.ok (some (host.hdata_integer h.ptr h.object n)),
     [HostCall.getVarType h.ptr n, HostCall.readInteger h.ptr h.object n])

/-- Translation of `impl HDataType for i64`: `hdata_value`. -/
def hdataValueI64 (host : Host) (h : HData) (name : String) :
    Except String (Option Int) × List HostCall :=
  let n := lossy name
  if host.hdata_get_var_type h.ptr n ≠ WEECHAT_HDATA_LONG then
    (Except.ok none, [HostCall.getVarType h.ptr n])
  else
    (Except.ok (some (host.hdata_long h.ptr h.object n)),
     [HostCall.getVarType h.ptr n, HostCall.readLong h.ptr h.object n])

/-- Translation of `impl HDataType for char`: `hdata_value`.  After a matching kind check the
C `char` is converted with `try_into::<u8>().map(|ch| ch as char).ok()`. -/
def hdataValueChar (host : Host) (h : HData) (name : String) :
    Except String (Option Char) × List HostCall :=
  let n := lossy name
  if host.hdata_get_var_type h.ptr n ≠ WEECHAT_HDATA_CHAR then
    (Except.ok none, [HostCall.getVarType h.ptr n])
  else
    let c := host.hdata_char h.ptr h.object n
    (Except.ok ((c_char_try_into_u8 c).map (fun ch => Char.ofNat ch)),
     [HostCall.getVarType h.ptr n, HostCall.readChar h.ptr h.object n])

/-- Translation of `impl HDataType for DateTime<Utc>`: `hdata_value`.  The host timestamp is
decoded with `NaiveDateTime::from_timestamp`, which panics (modelled as
`Except.error`) on an out-of-range value. -/
def hdataValueTime (host : Host) (h : HData) (name : String) :
    Except String (Option DateTimeUtc) × List HostCall :=
  let n := lossy name
  if host.hdata_get_var_type h.ptr n ≠ WEECHAT_HDATA_TIME then
    (Except.ok none, [HostCall.getVarType h.ptr n])
  else
    let unix_time := host.hdata_time h.ptr h.object n
    match NaiveDateTime_from_timestamp unix_time with
    | none =>
      (Except.error "invalid or out-of-range datetime",
       [HostCall.getVarType h.ptr n, HostCall.readTime h.ptr h.object n])
    | some naive =>
      (Except.ok (some naive),
       [HostCall.getVarType h.ptr n, HostCall.readTime h.ptr h.object n])

/-- Translation of `impl HDataType for HDataPointer`: `hdata_value`.  The host-returned
address is wrapped unconditionally, even when it is null. -/
def hdataValuePointer (host : Host) (h : HData) (name : String) :
    Except String (Option HDataPointer) × List HostCall :=
  let n := lossy name
  if host.hdata_get_var_type h.ptr n ≠ WEECHAT_HDATA_POINTER then
    (Except.ok none, [HostCall.getVarType h.ptr n])
  else
    (Except.ok (some ⟨host.hdata_pointer h.ptr h.object n, h.weechat_ptr⟩),
     [HostCall.getVarType h.ptr n, HostCall.readPointer h.ptr h.object n])

/-! ## The unchecked getters on `HData` -/

/-- Method `HData::get_string_unchecked`. -/
def get_string_unchecked (host : Host) (h : HData) (name : String) :
    Option String × List HostCall :=
  let n := lossy name
  (host.hdata_string h.ptr h.object n, [HostCall.readString h.ptr h.object n])

/-- Method `HData::get_i32_unchecked`. -/
def get_i32_unchecked (host : Host) (h : HData) (name : String) :
    Int × List HostCall :=
  let n := lossy name
  (host.hdata_integer h.ptr h.object n, [HostCall.readInteger h.ptr h.object n])

/-- Method `HData::get_i64_unchecked`. -/
def get_i64_unchecked (host : Host) (h : HData) (name : String) :
    Int × List HostCall :=
  let n := lossy name
  (host.hdata_long h.ptr h.object n, [HostCall.readLong h.ptr h.object n])

/-! ## The typed write path (`HDataType::hdata_set_value`)

Each implementation builds a fresh one-slot hashtable via
`Weechat::new_hashtable(1, String, kind)` (the `.unwrap()` panics — modelled
as `Except.error` — when the host's `hashtable_new` returns null), stages the
serialized value with `Hashtable::set`, and commits with `hdata_update`.
None of them queries `hdata_get_var_type`. -/

/-- Translation of `impl HDataType for Cow<str>`: `hdata_set_value`.  Declared value item
type `String`; the value is staged as-is. -/
def hdataSetValueStr (host : Host) (h : HData) (name : String) (value : String) :
    Except String (Nat × List HostCall) :=
  if host.hashtable_new_ok 1 "string" "string" then
    let ht := (Hashtable.mk h.weechat_ptr 1 "string" "string" []).set name value
    Except.ok (as_usize (host.hdata_update h.ptr h.object ht),
      [HostCall.hashtableNew 1 "string" "string",
       HostCall.hashtableSet (lossy name) (lossy value),
       HostCall.hdataUpdate h.ptr h.object ht])
  else Except.error "called `Option::unwrap()` on a `None` value"

/-- Translation of `impl HDataType for char`: `hdata_set_value`.  Declared value item type
`String`; the value is staged as `value.to_string()` (the character itself). -/
def hdataSetValueChar (host : Host) (h : HData) (name : String) (value : Char) :
    Except String (Nat × List HostCall) :=
  if host.hashtable_new_ok 1 "string" "string" then
    let ht := (Hashtable.mk h.weechat_ptr 1 "string" "string" []).set name (String.singleton value)
    Except.ok (as_usize (host.hdata_update h.ptr h.object ht),
      [HostCall.hashtableNew 1 "string" "string",
       HostCall.hashtableSet (lossy name) (lossy (String.singleton value)),
       HostCall.hdataUpdate h.ptr h.object ht])
  else Except.error "called `Option::unwrap()` on a `None` value"

/-- Translation of `impl HDataType for i64`: `hdata_set_value`.  Declared value item type
`Integer`; the value is staged as its decimal text. -/
def hdataSetValueI64 (host : Host) (h : HData) (name : String) (value : Int) :
    Except String (Nat × List HostCall) :=
  if host.hashtable_new_ok 1 "string" "integer" then
    let ht := (Hashtable.mk h.weechat_ptr 1 "string" "integer" []).set name (toString value)
    Except.ok (as_usize (host.hdata_update h.ptr h.object ht),
      [HostCall.hashtableNew 1 "string" "integer",
       HostCall.hashtableSet (lossy name) (lossy (toString value)),
       HostCall.hdataUpdate h.ptr h.object ht])
  else Except.error "called `Option::unwrap()` on a `None` value"

/-- Translation of `impl HDataType for i32`: `hdata_set_value`.  Declared value item type
`Integer`; the value is staged as its decimal text. -/
def hdataSetValueI32 (host : Host) (h : HData) (name : String) (value : Int) :
    Except String (Nat × List HostCall) :=
  if host.hashtable_new_ok 1 "string" "integer" then
    let ht := (Hashtable.mk h.weechat_ptr 1 "string" "integer" []).set name (toString value)
    Except.ok (as_usize (host.hdata_update h.ptr h.object ht),
      [HostCall.hashtableNew 1 "string" "integer",
       HostCall.hashtableSet (lossy name) (lossy (toString value)),
       HostCall.hdataUpdate h.ptr h.object ht])
  else Except.error "called `Option::unwrap()` on a `None` value"

/-- Translation of `impl HDataType for DateTime<Utc>`: `hdata_set_value`.  Declared value
item type `Integer`; the value is staged as `value.timestamp().to_string()`. -/
def hdataSetValueTime (host : Host) (h : HData) (name : String) (value : DateTimeUtc) :
    Except String (Nat × List HostCall) :=
  if host.hashtable_new_ok 1 "string" "integer" then
    let ht := (Hashtable.mk h.weechat_ptr 1 "string" "integer" []).set name
      (toString value.timestamp)
    Except.ok (as_usize (host.hdata_update h.ptr h.object ht),
      [HostCall.hashtableNew 1 "string" "integer",
       HostCall.hashtableSet (lossy name) (lossy (toString value.timestamp)),
       HostCall.hdataUpdate h.ptr h.object ht])
  else Except.error "called `Option::unwrap()` on a `None` value"

/-- Translation of `impl HDataType for HDataPointer`: `hdata_set_value`.  Declared value item
type `Integer`; the value is staged as `(value.ptr as usize).to_string()`. -/
def hdataSetValuePointer (host : Host) (h : HData) (name : String) (value : HDataPointer) :
    Except String (Nat × List HostCall) :=
  if host.hashtable_new_ok 1 "string" "integer" then
    let ht := (Hashtable.mk h.weechat_ptr 1 "string" "integer" []).set name (toString value.ptr)
    Except.ok (as_usize (host.hdata_update h.ptr h.object ht),
      [HostCall.hashtableNew 1 "string" "integer",
       HostCall.hashtableSet (lossy name) (lossy (toString value.ptr)),
       HostCall.hdataUpdate h.ptr h.object ht])
  else Except.error "called `Option::unwrap()` on a `None` value"

/-! ## Generic dispatch (`HData::get_var` / `HData::update_var`)

In Rust the value type is chosen statically (`get_var::<T>`); here the six
supported value types become the tags of `HKind`, and a value of any of them
is an `HValue`.  `String` reads/writes delegate to the `Cow<str>`
implementation in the source, so both are the `str` tag. -/

/-- The six supported value types of the typed accessor layer. -/
inductive HKind where
  | str
  | i32
  | i64
  | ch
  | time
  | ptr
  deriving DecidableEq, Repr

/-- The kind-tag code each value type statically maps to (the
`WEECHAT_HDATA_*` constant its `hdata_value` implementation compares
against). -/
def staticKind : HKind → Int
  | HKind.str => WEECHAT_HDATA_STRING
  | HKind.i32 => WEECHAT_HDATA_INTEGER
  | HKind.i64 => WEECHAT_HDATA_LONG
  | HKind.ch => WEECHAT_HDATA_CHAR
  | HKind.time => WEECHAT_HDATA_TIME
  | HKind.ptr => WEECHAT_HDATA_POINTER

/-- A value of one of the six supported value types. -/
inductive HValue where
  | str (s : String)
  | i32 (v : Int)
  | i64 (v : Int)
  | ch (c : Char)
  | time (t : DateTimeUtc)
  | ptr (p : HDataPointer)
  deriving DecidableEq, Repr

/-- The value type an `HValue` belongs to. -/
def HValue.kind : HValue → HKind
  | HValue.str _ => HKind.str
  | HValue.i32 _ => HKind.i32
  | HValue.i64 _ => HKind.i64
  | HValue.ch _ => HKind.ch
  | HValue.time _ => HKind.time
  | HValue.ptr _ => HKind.ptr

/-- Method `HData::get_var::<T>`: dispatches to the `hdata_value` implementation of
the requested value type. -/
def get_var (host : Host) (h : HData) (k : HKind) (name : String) :
    Except String (Option HValue) × List HostCall :=
  match k with
  | HKind.str =>
    let r := hdataValueStr host h name
    (r.1.map (Option.map HValue.str), r.2)
  | HKind.i32 =>
    let r := hdataValueI32 host h name
    (r.1.map (Option.map HValue.i32), r.2)
  | HKind.i64 =>
    let r := hdataValueI64 host h name
    (r.1.map (Option.map HValue.i64), r.2)
  | HKind.ch =>
    let r := hdataValueChar host h name
    (r.1.map (Option.map HValue.ch), r.2)
  | HKind.time =>
    let r := hdataValueTime host h name
    (r.1.map (Option.map HValue.time), r.2)
  | HKind.ptr =>
    let r := hdataValuePointer host h name
    (r.1.map (Option.map HValue.ptr), r.2)

/-- Method `HData::update_var::<T>`: dispatches to the `hdata_set_value`
implementation of the written value's type. -/
def update_var (host : Host) (h : HData) (name : String) (value : HValue) :
    Except String (Nat × List HostCall) :=
  match value with
  | HValue.str s => hdataSetValueStr host h name s
  | HValue.i32 v => hdataSetValueI32 host h name v
  | HValue.i64 v => hdataSetValueI64 host h name v
  | HValue.ch c => hdataSetValueChar host h name c
  | HValue.time t => hdataSetValueTime host h name t
  | HValue.ptr p => hdataSetValuePointer host h name p

/-! ## Traversal and the cross-thread capsule -/

/-- Method `HDataPointer::advance`: asks the host to move the pointer by `count`
steps; a null result is `None`, otherwise a fresh `HDataPointer` is built from
the host-returned address and the original's plugin pointer.  The original
(`self`) is taken by reference in Rust and is not modified. -/
def HDataPointer.advance (self : HDataPointer) (host : Host) (hdata : HData)
    (count : Int) : Option HDataPointer × List HostCall :=
  let new_ptr := host.hdata_move hdata.ptr self.ptr count
  if new_ptr = 0 then
    (none, [HostCall.hdataMove hdata.ptr self.ptr count])
  else
    (some ⟨new_ptr, self.weechat⟩, [HostCall.hdataMove hdata.ptr self.ptr count])

/-- The main-thread proof token: a reference to the `Weechat` object (its
only datum at this layer is the plugin pointer). -/
structure WeechatToken where
  ptr : Nat
  deriving DecidableEq, Repr

/-- Structure `Sealed<T>` from `src/weechat-rs/src/lib.rs`: a newtype wrapper around an
arbitrary value. -/
structure Sealed (T : Type) where
  inner : T

/-- The tuple-struct constructor `Sealed(x)` — the only way to build a
`Sealed<T>` (the field is private). -/
def Sealed.seal {T : Type} (x : T) : Sealed T := ⟨x⟩

/-- Method `Sealed::unseal`: consumes the capsule and returns the inner value; the
`&Weechat` argument is unused, serving only as the main-thread proof token. -/
def Sealed.unseal {T : Type} (s : Sealed T) (_token : WeechatToken) : T :=
  s.inner

/-! ## Trace classification helpers -/

/-- Is this foreign call one of the six kind-specific field reads? -/
def HostCall.isFieldRead : HostCall → Bool
  | HostCall.readString _ _ _ => true
  | HostCall.readInteger _ _ _ => true
  | HostCall.readLong _ _ _ => true
  | HostCall.readChar _ _ _ => true
  | HostCall.readTime _ _ _ => true
  | HostCall.readPointer _ _ _ => true
  | _ => false

/-- Is this foreign call a `hdata_get_var_type` kind query? -/
def HostCall.isVarTypeQuery : HostCall → Bool
  | HostCall.getVarType _ _ => true
  | _ => false

/-- Is this foreign call a `hdata_update` bulk commit? -/
def HostCall.isUpdate : HostCall → Bool
  | HostCall.hdataUpdate _ _ _ => true
  | _ => false

/-- Does this foreign call, whenever it addresses an hdata table, use exactly
the given table's schema handle (`h.ptr`) and, for object-level calls, its
backing object (`h.object`)?  Hashtable construction/staging and pointer moves
do not address a table. -/
def HostCall.usesTable (h : HData) : HostCall → Bool
  | HostCall.getVarType p _ => p = h.ptr
  | HostCall.readString p o _ => p = h.ptr && o = h.object
  | HostCall.readInteger p o _ => p = h.ptr && o = h.object
  | HostCall.readLong p o _ => p = h.ptr && o = h.object
  | HostCall.readChar p o _ => p = h.ptr && o = h.object
  | HostCall.readTime p o _ => p = h.ptr && o = h.object
  | HostCall.readPointer p o _ => p = h.ptr && o = h.object
  | HostCall.hashtableNew _ _ _ => true
  | HostCall.hashtableSet _ _ => true
  | HostCall.hdataUpdate p o _ => p = h.ptr && o = h.object
  | HostCall.hdataMove _ _ _ => true

/-- Did this `Except`-wrapped computation panic? -/
def isPanic {α : Type} : Except String α → Bool
  | Except.error _ => true
  | Except.ok _ => false

/-- The side-table value item type each value type's write declares
(`HashtableItemType::to_string` of the second `new_hashtable` argument). -/
def declaredValueItemType : HValue → String
  | HValue.str _ => "string"
  | HValue.ch _ => "string"
  | HValue.i32 _ => "integer"
  | HValue.i64 _ => "integer"
  | HValue.time _ => "integer"
  | HValue.ptr _ => "integer"

/-- The text serialization each value type's write stages. -/
def serializeValue : HValue → String
  | HValue.str s => s
  | HValue.ch c => String.singleton c
  | HValue.i32 v => toString v
  | HValue.i64 v => toString v
  | HValue.time t => toString t.timestamp
  | HValue.ptr p => toString p.ptr

/-- The one-entry side-table a write against table `h` of value `v` under
field name `name` stages before committing. -/
def stagedTable (h : HData) (name : String) (v : HValue) : Hashtable :=
  ⟨h.weechat_ptr, 1, "string", declaredValueItemType v,
   [(lossy name, lossy (serializeValue v))]⟩

/-! ## Concrete hosts and tables for witnesses and counterexamples -/

/-- A concrete host: it reports kind `STRING` for every field, accepts
hashtable creation, and reports one updated field per bulk commit. -/
def host0 : Host where
  hdata_get_var_type := fun _ _ => WEECHAT_HDATA_STRING
  hdata_string := fun _ _ _ => some "core"
  hdata_integer := fun _ _ _ => 7
  hdata_long := fun _ _ _ => 9
  hdata_char := fun _ _ _ => 97
  hdata_time := fun _ _ _ => 1000
  hdata_pointer := fun _ _ _ => 0
  hdata_update := fun _ _ _ => 1
  hdata_move := fun _ _ _ => 0
  hashtable_new_ok := fun _ _ _ => true

/-- A concrete table: plugin pointer 1, backing object 2, schema handle 3. -/
def hdata0 : HData := ⟨1, 2, 3⟩

/-- A host reporting kind `TIME` everywhere, whose time read returns a
timestamp far outside chrono's representable range. -/
def hostTime : Host :=
  { host0 with
    hdata_get_var_type := fun _ _ => WEECHAT_HDATA_TIME
    hdata_time := fun _ _ _ => 9000000000000000 }

/-- A host reporting kind `CHAR` everywhere; the char read returns the
negative C char `-1` for the field "neg" and `97` otherwise. -/
def hostChar : Host :=
  { host0 with
    hdata_get_var_type := fun _ _ => WEECHAT_HDATA_CHAR
    hdata_char := fun _ _ n => if n = "neg" then -1 else 97 }

/-- A host reporting kind `POINTER` everywhere, whose pointer read returns
the null address. -/
def hostPtr : Host :=
  { host0 with hdata_get_var_type := fun _ _ => WEECHAT_HDATA_POINTER }

/-- A host reporting kind `STRING` everywhere, whose string read returns a
null C string. -/
def hostNullStr : Host :=
  { host0 with hdata_string := fun _ _ _ => none }

/-! ## Helper lemmas -/

/-- Filtering the nuls out of a nul-free list is the identity. -/
lemma filter_nul_of_not_contains (l : List Char) (hl : l.contains nulChar = false) :
    l.filter (fun c => c ≠ nulChar) = l := by
  rw [List.filter_eq_self]
  intro a ha
  simp only [List.contains_eq_any_beq, List.any_eq_false, beq_iff_eq] at hl
  simp only [decide_eq_true_eq]
  intro h
  exact hl a ha h.symm

/-- A nul-filtered list contains no nul. -/
lemma contains_filter_nul (l : List Char) :
    (l.filter (fun c => c ≠ nulChar)).contains nulChar = false := by
  simp only [List.contains_eq_any_beq, List.any_eq_false, beq_iff_eq]
  intro a ha h
  subst h
  simp at ha

/-- Lemma: `LossyCString::new` always succeeds, and its contents are exactly the
input with the nuls removed. -/
lemma lossyCString_spec (s : String) :
    LossyCString_new s = Except.ok (lossy s) := by
  obtain ⟨l⟩ := s
  unfold LossyCString_new CString_new lossy strReplaceNul
  by_cases hc : l.contains nulChar = true
  · simp only [hc, if_true, if_pos]
    rw [if_neg]
    simp only [contains_filter_nul l, Bool.false_eq_true, not_false_iff]
  · simp only [Bool.not_eq_true] at hc
    simp only [hc, Bool.false_eq_true, if_false]
    rw [filter_nul_of_not_contains l hc]

/-! ## Claim theorems -/

/-- Setting into a freshly built (empty) hashtable stages exactly the one
lossy-converted key/value pair. -/
lemma hashtable_set_empty (w : Nat) (kt vt key value : String) :
    (Hashtable.mk w 1 kt vt []).set key value =
      ⟨w, 1, kt, vt, [(lossy key, lossy value)]⟩ := by
  simp [Hashtable.set]

/-- Claim C7: for every input string, `LossyCString::new` produces a C string
whose contents equal the input with all embedded nul characters removed; the
conversion is total — the `expect` fallback branch never fires, so no
field-name string causes an error or panic at the boundary. -/
theorem claim_C7_lossy_cstring_total (s : String) :
    LossyCString_new s = Except.ok ⟨s.data.filter (fun c => c ≠ nulChar)⟩ :=
  lossyCString_spec s

/-- Claim C7 witness: the conversion at a concrete string with an embedded
nul. -/
theorem claim_C7_witness :
    LossyCString_new ⟨['a', nulChar, 'b']⟩ = Except.ok ⟨['a', 'b']⟩ := by
  have h := claim_C7_lossy_cstring_total ⟨['a', nulChar, 'b']⟩
  simpa using h

/-- Claim C5: sealing an arbitrary value and unsealing it with any valid
main-thread proof token returns the value unchanged — seal followed by unseal
is the identity, with no mutation or side effect beyond the move. -/
theorem claim_C5_seal_unseal_identity {T : Type} (x : T) (w : WeechatToken) :
    (Sealed.seal x).unseal w = x :=
  rfl

/-- Claim C6: `HDataPointer::advance` returns `None` exactly when the host's
move operation reports a null result, and otherwise `Some` of a fresh
`HDataPointer` wrapping the host-returned address together with the original
pointer's plugin handle; as a pure function of `self` it neither mutates nor
consumes the original. -/
theorem claim_C6_advance (self : HDataPointer) (host : Host) (hdata : HData)
    (count : Int) :
    (self.advance host hdata count).1 =
      (if host.hdata_move hdata.ptr self.ptr count = 0 then none
       else some ⟨host.hdata_move hdata.ptr self.ptr count, self.weechat⟩) ∧
    ((self.advance host hdata count).1 = none ↔
      host.hdata_move hdata.ptr self.ptr count = 0) := by
  simp only [HDataPointer.advance]
  constructor
  · split <;> simp_all
  · split <;> simp_all

/-- Claim C1: for every one of the six supported value types, reading a field
whose host-reported kind differs from the kind the requested type statically
maps to returns `None`, the kind-specific foreign read is never invoked, and
the only foreign call made is the kind query itself. -/
theorem claim_C1_kind_mismatch_read (host : Host) (h : HData) (k : HKind)
    (name : String)
    (hm : host.hdata_get_var_type h.ptr (lossy name) ≠ staticKind k) :
    (get_var host h k name).1 = Except.ok none ∧
    (get_var host h k name).2.filter HostCall.isFieldRead = [] ∧
    (get_var host h k name).2 = [HostCall.getVarType h.ptr (lossy name)] := by
  cases k <;>
    simp_all [get_var, hdataValueStr, hdataValueI32, hdataValueI64,
      hdataValueChar, hdataValueTime, hdataValuePointer, staticKind,
      HostCall.isFieldRead, Except.map]

/-- Claim C1 witness: a concrete host that reports kind `STRING` for every
field makes an `i32` read yield `None` with no field read performed. -/
theorem claim_C1_witness :
    host0.hdata_get_var_type hdata0.ptr (lossy "n") ≠ staticKind HKind.i32 ∧
    (get_var host0 hdata0 HKind.i32 "n").1 = Except.ok none := by
  refine ⟨by decide, ?_⟩
  exact (claim_C1_kind_mismatch_read host0 hdata0 HKind.i32 "n" (by decide)).1

/-- Claim C2 counterexample: `host0` reports kind `STRING` for the field
"n", which mismatches the `i32` accessor's declared kind, yet
`hdata_set_value` for `i32` still performs the foreign write: its trace
contains the `hdata_update` bulk-commit call (and no kind check at all), so
the write path is not prevented from committing on a kind mismatch. -/
theorem claim_C2_counterexample :
    host0.hdata_get_var_type hdata0.ptr (lossy "n") ≠ staticKind HKind.i32 ∧
    update_var host0 hdata0 "n" (HValue.i32 5) =
      Except.ok (1,
        [HostCall.hashtableNew 1 "string" "integer",
         HostCall.hashtableSet "n" "5",
         HostCall.hdataUpdate 3 2 ⟨1, 1, "string", "integer", [("n", "5")]⟩]) := by
  exact ⟨by decide, rfl⟩

/-- Claim C2 amended: for every supported value type, the write path performs
no host-kind check at all — its trace contains no `hdata_get_var_type` query —
and (whenever side-table creation succeeds) it unconditionally attempts the
foreign write, performing exactly one `hdata_update` bulk commit and returning
without a hard failure; a host-side kind mismatch is reflected only through
the host-reported update count. -/
theorem claim_C2_amended_no_check (host : Host) (h : HData) (name : String)
    (v : HValue)
    (hok : host.hashtable_new_ok 1 "string" (declaredValueItemType v) = true) :
    ∃ r : Nat × List HostCall,
      update_var host h name v = Except.ok r ∧
      (r.2.filter HostCall.isUpdate).length = 1 ∧
      r.2.filter HostCall.isVarTypeQuery = [] := by
  cases v <;>
    simp_all [update_var, hdataSetValueStr, hdataSetValueChar, hdataSetValueI32,
      hdataSetValueI64, hdataSetValueTime, hdataSetValuePointer,
      declaredValueItemType, HostCall.isUpdate, HostCall.isVarTypeQuery,
      List.filter]

/-- Claim C2 amended witness: the amended statement at a concrete
kind-mismatching host, table, name and value. -/
theorem claim_C2_amended_witness :
    ∃ r : Nat × List HostCall,
      update_var host0 hdata0 "n" (HValue.i32 5) = Except.ok r ∧
      (r.2.filter HostCall.isUpdate).length = 1 ∧
      r.2.filter HostCall.isVarTypeQuery = [] :=
  claim_C2_amended_no_check host0 hdata0 "n" (HValue.i32 5) (by decide)

/-- Claim C3 counterexample: writing the char `'a'` builds a side-table whose
declared value item type is `"string"`, not `"integer"`, and stages the
character itself (`"a"`) rather than a decimal-text serialization — refuting
the claim that char values are staged as integer-kind decimal entries. -/
theorem claim_C3_counterexample :
    update_var host0 hdata0 "c" (HValue.ch 'a') =
      Except.ok (1,
        [HostCall.hashtableNew 1 "string" "string",
         HostCall.hashtableSet "c" "a",
         HostCall.hdataUpdate 3 2 ⟨1, 1, "string", "string", [("c", "a")]⟩]) ∧
    declaredValueItemType (HValue.ch 'a') ≠ "integer" := by
  exact ⟨rfl, by decide⟩

/-- Claim C3 amended: for every supported value type, a write stages exactly
one key/value pair in a freshly built side-table — the field name mapped to a
string serialization of the value — with declared value kind `String` for
string AND char values (a char is staged as the character itself) and
`Integer` with decimal-text serialization for i32, i64, time and pointer
values; it then performs exactly one `hdata_update` bulk commit against the
table's backing object and returns the host-reported update count (through
the C `int` → `usize` cast of the source). -/
theorem claim_C3_amended_staging (host : Host) (h : HData) (name : String)
    (v : HValue)
    (hok : host.hashtable_new_ok 1 "string" (declaredValueItemType v) = true) :
    update_var host h name v =
      Except.ok (as_usize (host.hdata_update h.ptr h.object (stagedTable h name v)),
        [HostCall.hashtableNew 1 "string" (declaredValueItemType v),
         HostCall.hashtableSet (lossy name) (lossy (serializeValue v)),
         HostCall.hdataUpdate h.ptr h.object (stagedTable h name v)]) := by
  cases v <;>
    simp_all [update_var, hdataSetValueStr, hdataSetValueChar, hdataSetValueI32,
      hdataSetValueI64, hdataSetValueTime, hdataSetValuePointer,
      declaredValueItemType, serializeValue, stagedTable, hashtable_set_empty]

/-- Claim C3 amended witness: the staging equation at a concrete host, table,
name and i64 value. -/
theorem claim_C3_amended_witness :
    update_var host0 hdata0 "number" (HValue.i64 42) =
      Except.ok (1,
        [HostCall.hashtableNew 1 "string" "integer",
         HostCall.hashtableSet "number" "42",
         HostCall.hdataUpdate 3 2 ⟨1, 1, "string", "integer", [("number", "42")]⟩]) := by
  have h := claim_C3_amended_staging host0 hdata0 "number" (HValue.i64 42) (by decide)
  simpa using h

/-- Claim C4 counterexample: on a host whose time read returns a timestamp far
outside chrono's representable range, the kind-matched time read panics
(chrono's `NaiveDateTime::from_timestamp` panics on out-of-range seconds)
instead of surfacing `None`. -/
theorem claim_C4_counterexample :
    (get_var hostTime hdata0 HKind.time "t").1 =
      Except.error "invalid or out-of-range datetime" ∧
    isPanic (get_var hostTime hdata0 HKind.time "t").1 = true := by
  exact ⟨rfl, rfl⟩

/-- Claim C4 amended: for every supported value type and every field name the
safe read path surfaces unrecognized names and kind mismatches as `None`
without panicking, and the string, i32, i64, char and pointer reads never
panic for any value the host may return (including arbitrary bytes for the
char kind, where a negative C char yields `None`); the time read, however,
panics exactly when the host-reported kind matches and the host-returned
timestamp is outside chrono's representable range. -/
theorem claim_C4_amended_no_panic (host : Host) (h : HData) (k : HKind)
    (name : String) :
    (host.hdata_get_var_type h.ptr (lossy name) ≠ staticKind k →
      (get_var host h k name).1 = Except.ok none) ∧
    (isPanic (get_var host h k name).1 = true ↔
      (k = HKind.time ∧
       host.hdata_get_var_type h.ptr (lossy name) = WEECHAT_HDATA_TIME ∧
       NaiveDateTime_from_timestamp
         (host.hdata_time h.ptr h.object (lossy name)) = none)) := by
  constructor
  · intro hm
    cases k <;>
      simp_all [get_var, hdataValueStr, hdataValueI32, hdataValueI64,
        hdataValueChar, hdataValueTime, hdataValuePointer, staticKind,
        Except.map]
  · cases k <;>
      simp only [get_var, hdataValueStr, hdataValueI32, hdataValueI64,
        hdataValueChar, hdataValueTime, hdataValuePointer]
    case str => split <;> simp [isPanic, Except.map]
    case i32 => split <;> simp [isPanic, Except.map]
    case i64 => split <;> simp [isPanic, Except.map]
    case ch => split <;> simp [isPanic, Except.map]
    case ptr => split <;> simp [isPanic, Except.map]
    case time =>
      split
      · rename_i hcond
        simp only [ne_eq] at hcond
        simp [isPanic, Except.map, hcond]
      · rename_i hcond
        simp only [ne_eq, not_not] at hcond
        rcases hm : NaiveDateTime_from_timestamp
            (host.hdata_time h.ptr h.object (lossy name)) with _ | d <;>
          simp [hm, isPanic, Except.map, hcond]

/-- Claim C4 amended witness: on a host reporting kind `STRING` everywhere,
the kind-mismatched time read surfaces `None` without panicking; on a host
reporting kind `TIME` with an out-of-range timestamp, the panic
characterization is exercised in the panicking direction. -/
theorem claim_C4_amended_witness :
    (get_var host0 hdata0 HKind.time "t").1 = Except.ok none ∧
    isPanic (get_var hostTime hdata0 HKind.time "t").1 = true := by
  constructor
  · exact (claim_C4_amended_no_panic host0 hdata0 HKind.time "t").1 (by decide)
  · exact (claim_C4_amended_no_panic hostTime hdata0 HKind.time "t").2.mpr
      ⟨rfl, by decide, by decide⟩

/-- Claim C8: every operation on an `HData` — `get_var` of any type,
`update_var` of any type, and the unchecked getters — leaves the table's
three fields untouched (the operations are pure functions of the table) and
directs every table-addressing foreign call it makes at exactly the table's
own `(schema handle, backing object)` pair, so all field accesses against a
given `HData` use the same pair for the table's lifetime. -/
theorem claim_C8_same_table (host : Host) (h : HData) (k : HKind)
    (name : String) (v : HValue) :
    (get_var host h k name).2.all (HostCall.usesTable h) = true ∧
    (∀ r : Nat × List HostCall, update_var host h name v = Except.ok r →
      r.2.all (HostCall.usesTable h) = true) ∧
    (get_string_unchecked host h name).2.all (HostCall.usesTable h) = true ∧
    (get_i32_unchecked host h name).2.all (HostCall.usesTable h) = true ∧
    (get_i64_unchecked host h name).2.all (HostCall.usesTable h) = true := by
  refine ⟨?_, ?_, ?_, ?_, ?_⟩
  · cases k
    case time =>
      rcases hm : NaiveDateTime_from_timestamp
          (host.hdata_time h.ptr h.object (lossy name)) with _ | d <;>
        (simp only [get_var, hdataValueTime]
         split <;> simp [hm, HostCall.usesTable])
    all_goals
      simp only [get_var, hdataValueStr, hdataValueI32, hdataValueI64,
        hdataValueChar, hdataValuePointer]
    all_goals split <;> simp [HostCall.usesTable]
  · intro r hr
    cases v <;>
      simp only [update_var, hdataSetValueStr, hdataSetValueChar,
        hdataSetValueI32, hdataSetValueI64, hdataSetValueTime,
        hdataSetValuePointer] at hr <;>
      split at hr <;>
      first
        | exact Except.noConfusion hr
        | (rw [Except.ok.injEq] at hr
           subst hr
           simp [HostCall.usesTable])
  · simp [get_string_unchecked, HostCall.usesTable]
  · simp [get_i32_unchecked, HostCall.usesTable]
  · simp [get_i64_unchecked, HostCall.usesTable]

/-- Claim C8 witness: the trace discipline at a concrete host, table and
write, with the update hypothesis discharged at the concrete trace. -/
theorem claim_C8_witness :
    (get_var host0 hdata0 HKind.str "n").2.all (HostCall.usesTable hdata0) = true ∧
    ([HostCall.hashtableNew 1 "string" "integer",
      HostCall.hashtableSet "n" "5",
      HostCall.hdataUpdate 3 2 ⟨1, 1, "string", "integer", [("n", "5")]⟩].all
        (HostCall.usesTable hdata0) = true) := by
  refine ⟨(claim_C8_same_table host0 hdata0 HKind.str "n" (HValue.i64 5)).1, ?_⟩
  exact (claim_C8_same_table host0 hdata0 HKind.str "n" (HValue.i64 5)).2.1
    (1, [HostCall.hashtableNew 1 "string" "integer",
         HostCall.hashtableSet "n" "5",
         HostCall.hdataUpdate 3 2 ⟨1, 1, "string", "integer", [("n", "5")]⟩]) rfl

/-- Claim C9: a pointer-kind read whose host-reported kind matches always
returns `Some` of an `HDataPointer` wrapping the host-returned address — even
when that address is null — unlike the string read, which maps a null host
result to `None`. -/
theorem claim_C9_pointer_null_wrapped (host : Host) (h : HData) (name : String)
    (hk : host.hdata_get_var_type h.ptr (lossy name) = WEECHAT_HDATA_POINTER) :
    (hdataValuePointer host h name).1 =
      Except.ok (some ⟨host.hdata_pointer h.ptr h.object (lossy name),
        h.weechat_ptr⟩) ∧
    (∀ host2 : Host, ∀ h2 : HData, ∀ name2 : String,
      host2.hdata_get_var_type h2.ptr (lossy name2) = WEECHAT_HDATA_STRING →
      host2.hdata_string h2.ptr h2.object (lossy name2) = none →
      (hdataValueStr host2 h2 name2).1 = Except.ok none) := by
  constructor
  · simp [hdataValuePointer, hk]
  · intro host2 h2 name2 hk2 hs2
    simp [hdataValueStr, hk2, hs2]

/-- Claim C9 witness: a host whose pointer read returns the null address still
yields `Some` (wrapping address 0), while a matching-kind string read whose
host result is null yields `None`. -/
theorem claim_C9_witness :
    (hdataValuePointer hostPtr hdata0 "p").1 = Except.ok (some ⟨0, 1⟩) ∧
    (hdataValueStr hostNullStr hdata0 "n").1 = Except.ok none := by
  constructor
  · exact (claim_C9_pointer_null_wrapped hostPtr hdata0 "p" (by decide)).1
  · exact (claim_C9_pointer_null_wrapped hostPtr hdata0 "p" (by decide)).2
      hostNullStr hdata0 "n" (by decide) (by decide)

/-- Claim C10: a char-kind read whose host-reported kind matches yields `None`
exactly when the host-returned C char does not convert to a `u8` (is
negative), and otherwise `Some` of that byte as a character — so a
kind-matched char read can still be absent. -/
theorem claim_C10_char_conversion (host : Host) (h : HData) (name : String)
    (hk : host.hdata_get_var_type h.ptr (lossy name) = WEECHAT_HDATA_CHAR)
    (lo : -128 ≤ host.hdata_char h.ptr h.object (lossy name))
    (hi : host.hdata_char h.ptr h.object (lossy name) ≤ 127) :
    (hdataValueChar host h name).1 =
      Except.ok
        (if host.hdata_char h.ptr h.object (lossy name) < 0 then none
         else some (Char.ofNat
           (host.hdata_char h.ptr h.object (lossy name)).toNat)) := by
  by_cases hneg : host.hdata_char h.ptr h.object (lossy name) < 0
  · have hno : ¬(0 ≤ host.hdata_char h.ptr h.object (lossy name) ∧
        host.hdata_char h.ptr h.object (lossy name) < 256) := by omega
    simp [hdataValueChar, hk, c_char_try_into_u8, hno, hneg]
  · have hyes : 0 ≤ host.hdata_char h.ptr h.object (lossy name) ∧
        host.hdata_char h.ptr h.object (lossy name) < 256 := by omega
    simp [hdataValueChar, hk, c_char_try_into_u8, hyes, hneg]

/-- Claim C10 witness: on a kind-matching host the char read yields `None`
for the field whose C char value is `-1` and `Some 'a'` for the field whose
value is `97`. -/
theorem claim_C10_witness :
    (hdataValueChar hostChar hdata0 "neg").1 = Except.ok none ∧
    (hdataValueChar hostChar hdata0 "pos").1 = Except.ok (some 'a') := by
  constructor
  · have h := claim_C10_char_conversion hostChar hdata0 "neg" (by decide)
      (by decide) (by decide)
    simpa using h
  · have h := claim_C10_char_conversion hostChar hdata0 "pos" (by decide)
      (by decide) (by decide)
    simpa using h

end Weechat
